import Mathlib

/-!
Verification development for the build-volume subsystem of the Cura
repository (file `src/cura/BuildVolume.py`).

The embedding works over exact rationals (`ℚ`): the Python code computes with
floats, but every claim under test is about the algebraic structure of the
computation (branching, folds, list assembly), which is identical in exact
arithmetic.

The 2D polygon kernel (`UM.Math.Polygon`: `intersectsPolygon`,
`getMinkowskiHull`, `approximatedCircle`) and the scene-graph collaborators
(`UM.Scene`, `cura.Scene.CuraSceneNode`) are external to the repository's
sources; they are modelled from the spec, either as explicit definitions or as
an abstract oracle (`Geom`) over which the embedded functions are parametric.
Everything else is translated statement-by-statement from `BuildVolume.py`.
-/

/-- Points of the 2D bed plane, in Cura scene coordinates. -/
abbrev Point := ℚ × ℚ

/-- Modelled from the spec: `UM.Math.Polygon` (not part of this repository's
sources) represents a polygon as an ordered sequence of 2D points. -/
abbrev Polygon := List Point

/-- Modelled from the spec: `Polygon.translate` shifts every point of the
polygon by the given offsets. -/
def translatePoly (dx dy : ℚ) (p : Polygon) : Polygon :=
  p.map (fun q => (q.1 + dx, q.2 + dy))

/-- Modelled from the spec: the external polygon geometry kernel
(`UM.Math.Polygon`, not part of this repository's sources). The build-volume
code only observes it through these operations, so the embedding is parametric
in them:
* `inter p q` stands for `p.intersectsPolygon(q) is not None` (area overlap);
* `minkowskiHull p q` stands for `p.getMinkowskiHull(q)` (dilation);
* `approximatedCircle r` stands for `Polygon.approximatedCircle(r)`;
* `sinT k` / `cosT k` stand for `math.sin(2*pi*k/32)` / `math.cos(2*pi*k/32)`,
  the only trigonometric values the elliptic-bed branch evaluates. -/
structure Geom where
  inter : Polygon → Polygon → Bool
  minkowskiHull : Polygon → Polygon → Polygon
  approximatedCircle : ℚ → Polygon
  sinT : ℕ → ℚ
  cosT : ℕ → ℚ

/-- Clearance around the prime position (`PRIME_CLEARANCE = 6.5` in
`BuildVolume.py`). -/
def PRIME_CLEARANCE : ℚ := 13 / 2

/-- Per-extruder view of the settings the build-volume code reads from an
extruder stack (`extruder.getProperty(..., "value")` calls). `nozzle_offset_x`
and `nozzle_offset_y` are `Option` because the code explicitly handles a
missing (`None`) machine nozzle offset. -/
structure Extruder where
  eid : ℕ
  isEnabled : Bool
  skirt_brim_line_width : ℚ
  initial_layer_line_width_factor : ℚ
  infill_wipe_dist : ℚ
  travel_avoid_other_parts : Bool
  travel_avoid_distance : ℚ
  nozzle_offset_x : Option ℚ
  nozzle_offset_y : Option ℚ
  nozzle_disallowed_areas : List Polygon
  prime_blob_enable : Bool
  prime_pos_x : ℚ
  prime_pos_y : ℚ
  retraction_hop_enabled : Bool
  retraction_hop : ℚ
deriving DecidableEq

/-- Snapshot of every configuration value the build-volume computations read
from the global container stack, the extruder manager and the machine
metadata. `extruders` is the machine's full extruder list
(`global_container_stack.extruders`); `usedExtruders` is what
`ExtruderManager.getUsedExtruderStacks()` returns; `activeExtruder` is
`getActiveExtruderStack()`; `globalExtruder` is the global stack itself viewed
through the extruder interface (the fallback used when there is no active
extruder stack). -/
structure Config where
  print_sequence : String
  adhesion_type : String
  machine_width : ℚ
  machine_depth : ℚ
  shape : String
  machine_center_is_zero : Bool
  machine_disallowed_areas : List Polygon
  nozzle_offsetting_for_disallowed_areas : Bool
  skirt_gap : ℚ
  skirt_line_count : ℚ
  skirt_brim_line_width : ℚ
  initial_layer_line_width_factor : ℚ
  brim_line_count : ℚ
  raft_margin : ℚ
  raft_base_thickness : ℚ
  raft_interface_thickness : ℚ
  raft_surface_layers : ℚ
  raft_surface_thickness : ℚ
  raft_airgap : ℚ
  layer_0_z_overlap : ℚ
  support_enable : Bool
  support_offset : ℚ
  draft_shield_enabled : Bool
  draft_shield_dist : ℚ
  ooze_shield_enabled : Bool
  ooze_shield_dist : ℚ
  prime_tower_enable : Bool
  prime_tower_circular : Bool
  prime_tower_size : ℚ
  prime_tower_position_x : ℚ
  prime_tower_position_y : ℚ
  retraction_hop_enabled_global : Bool
  retraction_hop_global : ℚ
  extruders : List Extruder
  usedExtruders : List Extruder
  activeExtruder : Option Extruder
  globalExtruder : Extruder
deriving DecidableEq

/-!
## Edge-clearance calculator

`getEdgeDisallowedSize` (`BuildVolume.py` lines 789-858), translated
branch-by-branch. The Python `raise Exception(...)` for an unrecognized
adhesion type becomes `Except.error`; every return becomes `Except.ok`.
`_getSettingFromAllExtruders("infill_wipe_dist")` reads the setting from every
machine extruder (via `ExtruderManager.getAllExtruderSettings`); Python's
`max(0, max(list))` over the (guarded nonempty) list equals
`list.foldl max 0`.
-/

/-- Translation of `BuildVolume.getEdgeDisallowedSize`. -/
def getEdgeDisallowedSize (cfg : Config) : Except String ℚ :=
  if cfg.extruders.isEmpty then .ok 0
  else if cfg.print_sequence = "one_at_a_time" then .ok (1 / 10)
  else
    let skirt_brim_line_width := cfg.skirt_brim_line_width
    let initial_factor := cfg.initial_layer_line_width_factor
    let bed_adhesion_size? : Except String ℚ :=
      if cfg.adhesion_type = "skirt" then
        let b0 := cfg.skirt_gap + (skirt_brim_line_width * cfg.skirt_line_count) * initial_factor / 100
        let b1 := cfg.usedExtruders.foldl
          (fun acc e => acc + e.skirt_brim_line_width * e.initial_layer_line_width_factor / 100) b0
        .ok (b1 - skirt_brim_line_width * initial_factor / 100)
      else if cfg.adhesion_type = "brim" then
        let b0 := skirt_brim_line_width * cfg.brim_line_count * initial_factor / 100
        let b1 := cfg.usedExtruders.foldl
          (fun acc e => acc + e.skirt_brim_line_width * e.initial_layer_line_width_factor / 100) b0
        .ok (b1 - skirt_brim_line_width * initial_factor / 100)
      else if cfg.adhesion_type = "raft" then .ok cfg.raft_margin
      else if cfg.adhesion_type = "none" then .ok 0
      else .error "Unknown bed adhesion type. Did you forget to update the build volume calculations for your new bed adhesion type?"
    match bed_adhesion_size? with
    | .error e => .error e
    | .ok bed_adhesion_size =>
      let support_expansion : ℚ :=
        if cfg.support_enable ∧ cfg.support_offset ≠ 0 then cfg.support_offset else 0
      let farthest0 : ℚ := 0
      let farthest1 :=
        if cfg.draft_shield_enabled then max farthest0 cfg.draft_shield_dist else farthest0
      let farthest_shield_distance :=
        if cfg.ooze_shield_enabled then max farthest1 cfg.ooze_shield_dist else farthest1
      let move0 : ℚ := 0
      let move1 := max move0 ((cfg.extruders.map Extruder.infill_wipe_dist).foldl max 0)
      let move_from_wall_radius := cfg.usedExtruders.foldl
        (fun acc e => if e.travel_avoid_other_parts then max acc e.travel_avoid_distance else acc)
        move1
      .ok (max move_from_wall_radius
        (max (support_expansion + farthest_shield_distance)
             (support_expansion + bed_adhesion_size)))

/-- Maximum of a list of rationals with floor 0 (the shape every maximum in
`getEdgeDisallowedSize` takes: each one starts from an accumulator of 0). -/
def listMax0 (l : List ℚ) : ℚ := l.foldl max 0

/-- Shared per-adhesion-type formula of the spec (section 4.2, steps 2a-2d),
`none` for an adhesion type outside the recognized enumeration. The spec's
formulas coincide with the code's, so both readings of the claims share this
definition. -/
def bedAdhesionSize? (cfg : Config) : Option ℚ :=
  if cfg.adhesion_type = "skirt" then
    some (cfg.skirt_gap + (cfg.skirt_brim_line_width * cfg.skirt_line_count) * cfg.initial_layer_line_width_factor / 100
      + (cfg.usedExtruders.map
          (fun e => e.skirt_brim_line_width * e.initial_layer_line_width_factor / 100)).sum
      - cfg.skirt_brim_line_width * cfg.initial_layer_line_width_factor / 100)
  else if cfg.adhesion_type = "brim" then
    some (cfg.skirt_brim_line_width * cfg.brim_line_count * cfg.initial_layer_line_width_factor / 100
      + (cfg.usedExtruders.map
          (fun e => e.skirt_brim_line_width * e.initial_layer_line_width_factor / 100)).sum
      - cfg.skirt_brim_line_width * cfg.initial_layer_line_width_factor / 100)
  else if cfg.adhesion_type = "raft" then some cfg.raft_margin
  else if cfg.adhesion_type = "none" then some 0
  else none

/-- Support expansion as both the claim and the code describe it (the code's
extra `support_offset != 0` test does not change the value). -/
def supportExpansion (cfg : Config) : ℚ :=
  if cfg.support_enable then cfg.support_offset else 0

/-- Farthest shield distance: maximum (with floor 0) over the enabled
shields' distances. -/
def farthestShieldDistance (cfg : Config) : ℚ :=
  listMax0 ((if cfg.draft_shield_enabled then [cfg.draft_shield_dist] else [])
    ++ (if cfg.ooze_shield_enabled then [cfg.ooze_shield_dist] else []))

/-- Claim C1's formula, taken literally: `move_from_wall_radius` is the max
over ALL machine extruders of `infill_wipe_dist` and of
`travel_avoid_distance` for the extruders with `travel_avoid_other_parts`
enabled. -/
def edgeDisallowedSizeClaim (cfg : Config) : ℚ :=
  let move_from_wall_radius :=
    max (listMax0 (cfg.extruders.map Extruder.infill_wipe_dist))
        (listMax0 ((cfg.extruders.filter Extruder.travel_avoid_other_parts).map
          Extruder.travel_avoid_distance))
  max move_from_wall_radius
    (max (supportExpansion cfg + farthestShieldDistance cfg)
         (supportExpansion cfg + (bedAdhesionSize? cfg).getD 0))

/-- Amended formula: as claim C1, except that the travel-avoidance maximum
ranges over the USED extruders only (the `infill_wipe_dist` maximum does range
over all machine extruders), which is what the code computes. -/
def edgeDisallowedSizeSpec (cfg : Config) : ℚ :=
  let move_from_wall_radius :=
    max (listMax0 (cfg.extruders.map Extruder.infill_wipe_dist))
        (listMax0 ((cfg.usedExtruders.filter Extruder.travel_avoid_other_parts).map
          Extruder.travel_avoid_distance))
  max move_from_wall_radius
    (max (supportExpansion cfg + farthestShieldDistance cfg)
         (supportExpansion cfg + (bedAdhesionSize? cfg).getD 0))

/-!
## Fold lemmas

Bridging the imperative accumulator loops of the Python code and the
max/sum formulas of the spec.
-/

theorem foldl_add_sum {α : Type} (f : α → ℚ) :
    ∀ (l : List α) (a : ℚ), l.foldl (fun acc e => acc + f e) a = a + (l.map f).sum := by
  intro l
  induction l with
  | nil => intro a; simp
  | cons x xs ih => intro a; simp [List.foldl_cons, ih]; ring

theorem foldl_if_max {α : Type} (p : α → Bool) (d : α → ℚ) :
    ∀ (l : List α) (a : ℚ),
      l.foldl (fun acc e => if p e then max acc (d e) else acc) a
        = ((l.filter p).map d).foldl max a := by
  intro l
  induction l with
  | nil => intro a; simp
  | cons x xs ih =>
    intro a
    by_cases hx : p x
    · simp [List.foldl_cons, List.filter_cons, hx, ih]
    · simp [List.foldl_cons, List.filter_cons, hx, ih]

theorem le_foldl_max : ∀ (l : List ℚ) (a : ℚ), a ≤ l.foldl max a := by
  intro l
  induction l with
  | nil => intro a; simp
  | cons x xs ih =>
    intro a
    calc a ≤ max a x := le_max_left a x
    _ ≤ xs.foldl max (max a x) := ih (max a x)
    _ = (x :: xs).foldl max a := by simp [List.foldl_cons]

theorem foldl_max_init : ∀ (l : List ℚ) (a : ℚ), 0 ≤ a →
    l.foldl max a = max a (l.foldl max 0) := by
  intro l
  induction l with
  | nil => intro a ha; simp [max_eq_left ha]
  | cons x xs ih =>
    intro a ha
    have h0x : (0 : ℚ) ≤ max 0 x := le_max_left 0 x
    have hax : (0 : ℚ) ≤ max a x := le_trans ha (le_max_left a x)
    have hF : (0 : ℚ) ≤ xs.foldl max 0 := le_foldl_max xs 0
    simp only [List.foldl_cons]
    rw [ih (max a x) hax, ih (max 0 x) h0x]
    rw [max_assoc a x _, max_assoc 0 x _]
    rw [max_eq_right (le_trans hF (le_max_right x _))]

theorem move_radius_eq (cfg : Config) :
    cfg.usedExtruders.foldl
      (fun acc e => if e.travel_avoid_other_parts then max acc e.travel_avoid_distance else acc)
      (max 0 ((cfg.extruders.map Extruder.infill_wipe_dist).foldl max 0))
    = max (listMax0 (cfg.extruders.map Extruder.infill_wipe_dist))
          (listMax0 ((cfg.usedExtruders.filter Extruder.travel_avoid_other_parts).map
            Extruder.travel_avoid_distance)) := by
  have hI : (0:ℚ) ≤ (cfg.extruders.map Extruder.infill_wipe_dist).foldl max 0 :=
    le_foldl_max _ 0
  rw [max_eq_right hI, foldl_if_max, foldl_max_init _ _ hI]
  rfl

theorem support_expansion_eq (cfg : Config) :
    (if cfg.support_enable ∧ cfg.support_offset ≠ 0 then cfg.support_offset else 0)
      = supportExpansion cfg := by
  unfold supportExpansion
  by_cases h : cfg.support_enable = true <;> by_cases h2 : cfg.support_offset = 0 <;>
    simp [h, h2]

theorem shield_distance_eq (cfg : Config) :
    (if cfg.ooze_shield_enabled
      then max (if cfg.draft_shield_enabled then max 0 cfg.draft_shield_dist else 0)
               cfg.ooze_shield_dist
      else (if cfg.draft_shield_enabled then max 0 cfg.draft_shield_dist else 0))
    = farthestShieldDistance cfg := by
  unfold farthestShieldDistance listMax0
  by_cases h : cfg.draft_shield_enabled = true <;> by_cases h2 : cfg.ooze_shield_enabled = true <;>
    simp [h, h2]

theorem edgeSize_eq_spec (cfg : Config)
    (hex : cfg.extruders ≠ [])
    (hseq : cfg.print_sequence ≠ "one_at_a_time")
    (hadh : (bedAdhesionSize? cfg).isSome) :
    getEdgeDisallowedSize cfg = .ok (edgeDisallowedSizeSpec cfg) := by
  have hex2 : cfg.extruders.isEmpty = false := by
    simpa [List.isEmpty_iff] using hex
  by_cases h1 : cfg.adhesion_type = "skirt"
  · simp only [getEdgeDisallowedSize, edgeDisallowedSizeSpec, bedAdhesionSize?, hex2, hseq,
      eq_true h1, Bool.false_eq_true, if_false, if_true, Option.getD_some]
    rw [move_radius_eq, shield_distance_eq, foldl_add_sum, support_expansion_eq]
  · by_cases h2 : cfg.adhesion_type = "brim"
    · simp only [getEdgeDisallowedSize, edgeDisallowedSizeSpec, bedAdhesionSize?, hex2, hseq,
        eq_false h1, eq_true h2, Bool.false_eq_true, if_false, if_true, Option.getD_some]
      rw [move_radius_eq, shield_distance_eq, foldl_add_sum, support_expansion_eq]
    · by_cases h3 : cfg.adhesion_type = "raft"
      · simp only [getEdgeDisallowedSize, edgeDisallowedSizeSpec, bedAdhesionSize?, hex2, hseq,
          eq_false h1, eq_false h2, eq_true h3, Bool.false_eq_true, if_false, if_true,
          Option.getD_some]
        rw [move_radius_eq, shield_distance_eq, support_expansion_eq]
      · by_cases h4 : cfg.adhesion_type = "none"
        · simp only [getEdgeDisallowedSize, edgeDisallowedSizeSpec, bedAdhesionSize?, hex2, hseq,
            eq_false h1, eq_false h2, eq_false h3, eq_true h4, Bool.false_eq_true, if_false,
            if_true, Option.getD_some]
          rw [move_radius_eq, shield_distance_eq, support_expansion_eq]
        · exfalso
          simp [bedAdhesionSize?, h1, h2, h3, h4] at hadh

/-!
## Concrete configurations

Baseline values used by the concrete test configurations of the claims.
`extruder0` and `config0` are all-zero/disabled defaults; each concrete
scenario overrides only the fields it is about.
-/

/-- Baseline extruder: everything zero or disabled. -/
def extruder0 : Extruder where
  eid := 0
  isEnabled := true
  skirt_brim_line_width := 0
  initial_layer_line_width_factor := 0
  infill_wipe_dist := 0
  travel_avoid_other_parts := false
  travel_avoid_distance := 0
  nozzle_offset_x := none
  nozzle_offset_y := none
  nozzle_disallowed_areas := []
  prime_blob_enable := false
  prime_pos_x := 0
  prime_pos_y := 0
  retraction_hop_enabled := false
  retraction_hop := 0

/-- Baseline configuration: rectangular 200x200 bed, centered origin, adhesion
"none", everything else zero or disabled, one all-default extruder. -/
def config0 : Config where
  print_sequence := "all_at_once"
  adhesion_type := "none"
  machine_width := 200
  machine_depth := 200
  shape := "rectangular"
  machine_center_is_zero := true
  machine_disallowed_areas := []
  nozzle_offsetting_for_disallowed_areas := true
  skirt_gap := 0
  skirt_line_count := 0
  skirt_brim_line_width := 0
  initial_layer_line_width_factor := 0
  brim_line_count := 0
  raft_margin := 0
  raft_base_thickness := 0
  raft_interface_thickness := 0
  raft_surface_layers := 0
  raft_surface_thickness := 0
  raft_airgap := 0
  layer_0_z_overlap := 0
  support_enable := false
  support_offset := 0
  draft_shield_enabled := false
  draft_shield_dist := 0
  ooze_shield_enabled := false
  ooze_shield_dist := 0
  prime_tower_enable := false
  prime_tower_circular := false
  prime_tower_size := 0
  prime_tower_position_x := 0
  prime_tower_position_y := 0
  retraction_hop_enabled_global := false
  retraction_hop_global := 0
  extruders := [extruder0]
  usedExtruders := [extruder0]
  activeExtruder := none
  globalExtruder := extruder0

/-- Machine extruder that is NOT used, with travel avoidance enabled at
distance 100 and an infill wipe distance of 50. -/
def travelExtruder : Extruder :=
  { extruder0 with
      eid := 1
      travel_avoid_other_parts := true
      travel_avoid_distance := 100
      infill_wipe_dist := 50 }

/-- Configuration refuting claim C1 as literally stated: the second machine
extruder is not used, but has travel avoidance enabled with distance 100 and
infill wipe distance 50. -/
def cfgC1 : Config :=
  { config0 with extruders := [extruder0, travelExtruder] }

/-- Claim C1, counterexample: on `cfgC1` (recognized adhesion type, one used
extruder, print sequence not "one_at_a_time") the code returns 50 — the
infill-wipe maximum ranges over all machine extruders but the
travel-avoidance maximum only over the used ones — while the claim's formula,
whose travel-avoidance maximum ranges over ALL extruders, gives 100. (Under
the other reading of the claim, with both maxima over the used extruders
only, the formula gives 0: the code matches neither.) -/
theorem c1_counterexample :
    getEdgeDisallowedSize cfgC1 = .ok 50 ∧ edgeDisallowedSizeClaim cfgC1 = 100 ∧
      ¬ getEdgeDisallowedSize cfgC1 = .ok (edgeDisallowedSizeClaim cfgC1) ∧
      listMax0 ((cfgC1.usedExtruders.map Extruder.infill_wipe_dist)
        ++ (cfgC1.usedExtruders.filter Extruder.travel_avoid_other_parts).map
             Extruder.travel_avoid_distance) = 0 := by
  refine ⟨?_, ?_, ?_, ?_⟩ <;>
    simp [getEdgeDisallowedSize, edgeDisallowedSizeClaim, cfgC1, config0, extruder0,
      travelExtruder, supportExpansion, farthestShieldDistance, bedAdhesionSize?, listMax0] <;>
    norm_num

/-- Claim C1 (amended): with the travel-avoidance maximum restricted to the
used extruders, `getEdgeDisallowedSize` returns exactly
max(move_from_wall_radius, support_expansion + farthest_shield_distance,
support_expansion + bed_adhesion_size) for every configuration with a machine
extruder, a used extruder, a recognized adhesion type and a print sequence
other than "one_at_a_time". -/
theorem c1_edge_size_formula (cfg : Config)
    (hex : cfg.extruders ≠ [])
    (_hused : cfg.usedExtruders ≠ [])
    (hseq : cfg.print_sequence ≠ "one_at_a_time")
    (hadh : (bedAdhesionSize? cfg).isSome) :
    getEdgeDisallowedSize cfg = .ok (edgeDisallowedSizeSpec cfg) :=
  edgeSize_eq_spec cfg hex hseq hadh

/-- Witness for `c1_edge_size_formula` at the baseline configuration. -/
theorem c1_edge_size_formula_witness :
    getEdgeDisallowedSize config0 = .ok (edgeDisallowedSizeSpec config0) :=
  c1_edge_size_formula config0 (by simp [config0]) (by simp [config0])
    (by simp [config0]) (by simp [bedAdhesionSize?, config0])

/-- Configuration refuting claim C2 as literally stated: the machine has no
extruders, so the guard at the top of `getEdgeDisallowedSize` returns 0 before
the (unrecognized) adhesion type is ever examined. -/
def cfgC2 : Config :=
  { config0 with adhesion_type := "glue", extruders := [] }

/-- Claim C2, counterexample: `cfgC2` has an adhesion type outside the
enumeration and a print sequence that is not "one_at_a_time", yet
`getEdgeDisallowedSize` returns the defaulted value 0 instead of raising. -/
theorem c2_counterexample :
    cfgC2.adhesion_type ∉ (["skirt", "brim", "raft", "none"] : List String) ∧
      cfgC2.print_sequence ≠ "one_at_a_time" ∧
      getEdgeDisallowedSize cfgC2 = .ok 0 ∧
      ¬ ∃ e, getEdgeDisallowedSize cfgC2 = .error e := by
  refine ⟨by simp [cfgC2, config0], by simp [cfgC2, config0], ?_, ?_⟩
  · simp [getEdgeDisallowedSize, cfgC2, config0]
  · rintro ⟨e, he⟩
    simp [getEdgeDisallowedSize, cfgC2, config0] at he

/-- Claim C2 (amended): for every configuration with at least one machine
extruder and a print sequence other than "one_at_a_time",
`getEdgeDisallowedSize` raises the distinct unknown-adhesion error exactly
when the adhesion type is outside the enumeration {skirt, brim, raft, none},
and returns a value for every adhesion type inside it. -/
theorem c2_adhesion_error (cfg : Config)
    (hex : cfg.extruders ≠ [])
    (hseq : cfg.print_sequence ≠ "one_at_a_time") :
    (cfg.adhesion_type ∉ (["skirt", "brim", "raft", "none"] : List String) →
      getEdgeDisallowedSize cfg = .error "Unknown bed adhesion type. Did you forget to update the build volume calculations for your new bed adhesion type?")
    ∧ (cfg.adhesion_type ∈ (["skirt", "brim", "raft", "none"] : List String) →
      ∃ v, getEdgeDisallowedSize cfg = .ok v) := by
  have hex2 : cfg.extruders.isEmpty = false := by
    simpa [List.isEmpty_iff] using hex
  constructor
  · intro hout
    simp only [List.mem_cons, List.mem_singleton, not_or] at hout
    obtain ⟨h1, h2, h3, h4⟩ := hout
    simp [getEdgeDisallowedSize, hex2, hseq, h1, h2, h3, h4]
  · intro hin
    have hsome : (bedAdhesionSize? cfg).isSome := by
      simp only [List.mem_cons, List.mem_singleton] at hin
      rcases hin with h | h | h | h | h
      · simp [bedAdhesionSize?, h]
      · simp [bedAdhesionSize?, h]
      · simp [bedAdhesionSize?, h]
      · simp [bedAdhesionSize?, h]
      · simp at h
    exact ⟨_, edgeSize_eq_spec cfg hex hseq hsome⟩

/-- Witness for `c2_adhesion_error`: at a concrete configuration with an
unrecognized adhesion type, the error branch fires; at the baseline with
adhesion "none", a value is returned. -/
theorem c2_adhesion_error_witness :
    getEdgeDisallowedSize { config0 with adhesion_type := "glue" }
      = .error "Unknown bed adhesion type. Did you forget to update the build volume calculations for your new bed adhesion type?" :=
  (c2_adhesion_error { config0 with adhesion_type := "glue" }
      (by simp [config0]) (by simp [config0])).1 (by simp [config0])

/-- Configuration refuting claim C7 as literally stated: a negative
`skirt_brim_line_width` makes the skirt-gap formula decrease as
`skirt_line_count` grows. -/
def cfgC7 : Config :=
  { config0 with
      adhesion_type := "skirt"
      skirt_brim_line_width := -1
      initial_layer_line_width_factor := 100 }

/-- Claim C7, counterexample: on `cfgC7` (adhesion "skirt", print sequence not
"one_at_a_time"), raising `skirt_line_count` from 0 to 1 with every other
setting fixed lowers the returned edge-clearance size from 1 to 0. -/
theorem c7_counterexample :
    cfgC7.adhesion_type = "skirt" ∧ cfgC7.print_sequence ≠ "one_at_a_time" ∧
      getEdgeDisallowedSize cfgC7 = .ok 1 ∧
      getEdgeDisallowedSize { cfgC7 with skirt_line_count := 1 } = .ok 0 ∧
      ¬ ((1 : ℚ) ≤ 0) := by
  refine ⟨by simp [cfgC7, config0], by simp [cfgC7, config0], ?_, ?_, by norm_num⟩ <;>
    simp [getEdgeDisallowedSize, cfgC7, config0, extruder0]

/-- Claim C7 (amended): under the extra assumption that the global
`skirt_brim_line_width` times `initial_layer_line_width_factor` is
nonnegative (true of every physically meaningful profile), increasing
`skirt_line_count` with every other setting held fixed never decreases the
value `getEdgeDisallowedSize` returns. -/
theorem c7_skirt_monotone (cfg : Config) (n' : ℚ)
    (hn : cfg.skirt_line_count ≤ n')
    (hw : 0 ≤ cfg.skirt_brim_line_width * cfg.initial_layer_line_width_factor)
    (hadh : cfg.adhesion_type = "skirt")
    (hseq : cfg.print_sequence ≠ "one_at_a_time") :
    ∀ v v', getEdgeDisallowedSize cfg = .ok v →
      getEdgeDisallowedSize { cfg with skirt_line_count := n' } = .ok v' → v ≤ v' := by
  intro v v' hv hv'
  by_cases hex : cfg.extruders = []
  · have h1 : getEdgeDisallowedSize cfg = .ok 0 := by simp [getEdgeDisallowedSize, hex]
    have h2 : getEdgeDisallowedSize { cfg with skirt_line_count := n' } = .ok 0 := by
      simp [getEdgeDisallowedSize, hex]
    rw [h1] at hv; rw [h2] at hv'
    injection hv with hv; injection hv' with hv'
    rw [← hv, ← hv']
  · have hsome : (bedAdhesionSize? cfg).isSome := by simp [bedAdhesionSize?, hadh]
    have hsome' : (bedAdhesionSize? { cfg with skirt_line_count := n' }).isSome := by
      simp [bedAdhesionSize?, hadh]
    rw [edgeSize_eq_spec cfg hex hseq hsome] at hv
    rw [edgeSize_eq_spec _ (by simpa using hex) (by simpa using hseq) hsome'] at hv'
    injection hv with hv; injection hv' with hv'
    rw [← hv, ← hv']
    have key : cfg.skirt_brim_line_width * cfg.skirt_line_count * cfg.initial_layer_line_width_factor / 100
        ≤ cfg.skirt_brim_line_width * n' * cfg.initial_layer_line_width_factor / 100 := by
      have h0 : 0 ≤ cfg.skirt_brim_line_width * cfg.initial_layer_line_width_factor * (n' - cfg.skirt_line_count) :=
        mul_nonneg hw (sub_nonneg.mpr hn)
      nlinarith
    simp only [edgeDisallowedSizeSpec, bedAdhesionSize?, hadh, supportExpansion,
      farthestShieldDistance, listMax0]
    simp only [eq_true hadh, if_true]
    refine max_le_max (le_refl _) (max_le_max (le_refl _) (add_le_add_left ?_ _))
    simp only [Option.getD_some]
    linarith [key]

/-- Witness configuration for `c7_skirt_monotone`: the baseline with adhesion
"skirt". -/
def cfgC7W : Config := { config0 with adhesion_type := "skirt" }

/-- Witness for `c7_skirt_monotone` at `cfgC7W` with the count raised to 2:
both edge sizes evaluate to 0 and the theorem yields 0 <= 0. -/
theorem c7_skirt_monotone_witness :
    getEdgeDisallowedSize cfgC7W = .ok 0 ∧
      getEdgeDisallowedSize { cfgC7W with skirt_line_count := 2 } = .ok 0 ∧ (0 : ℚ) ≤ 0 := by
  have e1 : getEdgeDisallowedSize cfgC7W = .ok 0 := by
    simp [getEdgeDisallowedSize, cfgC7W, config0, extruder0]
  have e2 : getEdgeDisallowedSize { cfgC7W with skirt_line_count := 2 } = .ok 0 := by
    simp [getEdgeDisallowedSize, cfgC7W, config0, extruder0]
  exact ⟨e1, e2, c7_skirt_monotone cfgC7W 2 (by norm_num [cfgC7W, config0])
    (by norm_num [cfgC7W, config0]) (by simp [cfgC7W, config0])
    (by simp [cfgC7W, config0]) 0 0 e1 e2⟩

/-!
## Static machine disallowed areas

Translation of `BuildVolume._computeDisallowedAreasStatic` (`BuildVolume.py`
lines 635-768): machine-declared polygons dilated by the border size and
translated by the nozzle offset, then the border strips around the bed edge
(four quadrilaterals for a rectangular bed; 32 wedges plus four triangles for
an elliptic bed). The Python result is a dictionary keyed by the extruder id
in used-extruder insertion order; the embedding keeps the per-extruder lists
in that same order.
-/

/-- Accumulator for the per-side unreachable-border computation
(`left_unreachable_border` and friends in the source). -/
structure Borders where
  left : ℚ
  right : ℚ
  top : ℚ
  bottom : ℚ
deriving DecidableEq

/-- One step of the loop over the other extruders that widens the unreachable
borders by the relative nozzle offsets. -/
def borderStep (offset_x offset_y : ℚ) (eid : ℕ) (acc : Borders) (other : Extruder) : Borders :=
  if other.eid = eid then acc
  else
    let other_offset_x := other.nozzle_offset_x.getD 0
    let other_offset_y := -(other.nozzle_offset_y.getD 0)
    { left := min acc.left (other_offset_x - offset_x)
      right := max acc.right (other_offset_x - offset_x)
      top := min acc.top (other_offset_y - offset_y)
      bottom := max acc.bottom (other_offset_y - offset_y) }

/-- Unreachable borders for one extruder: fold of `borderStep` over all the
machine's extruders, skipped entirely when the machine metadata flag
`nozzle_offsetting_for_disallowed_areas` is false. -/
def unreachableBorders (cfg : Config) (offset_x offset_y : ℚ) (eid : ℕ) : Borders :=
  if cfg.nozzle_offsetting_for_disallowed_areas then
    cfg.extruders.foldl (borderStep offset_x offset_y eid) ⟨0, 0, 0, 0⟩
  else ⟨0, 0, 0, 0⟩

/-- Border strips for a rectangular bed (the four conditional `Polygon(...)`
appends of the non-elliptic branch, in source order: left, right, bottom,
top). -/
def rectBorderPolys (hw hd b : ℚ) (br : Borders) : List Polygon :=
  (if b - br.left > 0 then
    [[(-hw, -hd), (-hw, hd),
      (-hw + b - br.left, hd - b - br.bottom), (-hw + b - br.left, -hd + b - br.top)]]
   else []) ++
  (if b + br.right > 0 then
    [[(hw, hd), (hw, -hd),
      (hw - b - br.right, -hd + b - br.top), (hw - b - br.right, hd - b - br.bottom)]]
   else []) ++
  (if b + br.bottom > 0 then
    [[(-hw, hd), (hw, hd),
      (hw - b - br.right, hd - b - br.bottom), (-hw + b - br.left, hd - b - br.bottom)]]
   else []) ++
  (if b - br.top > 0 then
    [[(hw, -hd), (-hw, -hd),
      (-hw + b - br.left, -hd + b - br.top), (hw - b - br.right, -hd + b - br.top)]]
   else [])

/-- Border areas for an elliptic bed: 32 wedge triangles walking the inner
arc, plus four corner triangles when the border size is positive. The
trigonometric values are supplied by the geometry oracle (`Geom.sinT k` is
sin(2*pi*k/32), `Geom.cosT k` is cos(2*pi*k/32)); the vertex for k = 0 is the
literal starting vertex of the source. -/
def ellipticBorderPolys (G : Geom) (hw hd b : ℚ) : List Polygon :=
  ((List.range 32).map (fun i =>
    let quadrant := 4 * i / 32
    let corner : Point :=
      if quadrant = 0 then (-hw, hd)
      else if quadrant = 1 then (-hw, -hd)
      else if quadrant = 2 then (hw, -hd)
      else (hw, hd)
    let arc_prev : Point :=
      if i = 0 then (0, hd - b)
      else (-(hw - b) * G.sinT i, (hd - b) * G.cosT i)
    let arc_next : Point := (-(hw - b) * G.sinT (i + 1), (hd - b) * G.cosT (i + 1))
    [corner, arc_prev, arc_next]))
  ++ (if b > 0 then
      [[(-hw, -hd), (-hw, hd), (-hw + b, 0)],
       [(-hw, hd), (hw, hd), (0, hd - b)],
       [(hw, hd), (hw, -hd), (hw - b, 0)],
       [(hw, -hd), (-hw, -hd), (0, -hd + b)]]
    else [])

/-- Per-extruder body of `_computeDisallowedAreasStatic`. -/
def staticAreasFor (G : Geom) (cfg : Config) (border_size : ℚ) (ext : Extruder) : List Polygon :=
  let machine_disallowed_polygons := cfg.machine_disallowed_areas.map
    (fun a => G.minkowskiHull a (G.approximatedCircle border_size))
  let offset_x := ext.nozzle_offset_x.getD 0
  let offset_y := -(ext.nozzle_offset_y.getD 0)
  let br := unreachableBorders cfg offset_x offset_y ext.eid
  let hw := cfg.machine_width / 2
  let hd := cfg.machine_depth / 2
  machine_disallowed_polygons.map (translatePoly offset_x offset_y)
    ++ (if cfg.shape ≠ "elliptic" then rectBorderPolys hw hd border_size br
        else ellipticBorderPolys G hw hd border_size)

/-- Translation of `BuildVolume._computeDisallowedAreasStatic`: one polygon
list per used extruder, in used-extruder order. -/
def computeDisallowedAreasStatic (G : Geom) (cfg : Config) (border_size : ℚ)
    (used : List Extruder) : List (List Polygon) :=
  used.map (staticAreasFor G cfg border_size)

/-!
## Signed polygon areas (for claim C8)
-/

/-- Twice the summed cross products of the shoelace formula, walking the
polygon with the given first point closing the cycle. -/
def shoelace2 (first : Point) : List Point → ℚ
  | [] => 0
  | [p] => p.1 * first.2 - first.1 * p.2
  | p :: q :: r => (p.1 * q.2 - q.1 * p.2) + shoelace2 first (q :: r)

/-- Shoelace-signed area of a polygon (counter-clockwise positive). -/
def signedArea (p : Polygon) : ℚ :=
  match p with
  | [] => 0
  | q :: _ => shoelace2 q p / 2

/-- Sum of the signed areas of a list of polygons. -/
def signedAreaSum (ps : List Polygon) : ℚ := (ps.map signedArea).sum

def lo (l : List ℚ) : ℚ :=
  match l with
  | [] => 0
  | x :: xs => xs.foldl min x

def hi (l : List ℚ) : ℚ :=
  match l with
  | [] => 0
  | x :: xs => xs.foldl max x

def bboxOverlap (p q : Polygon) : Bool :=
  match p, q with
  | [], _ => false
  | _, [] => false
  | _, _ =>
    decide (lo (p.map Prod.fst) ≤ hi (q.map Prod.fst)) &&
    decide (lo (q.map Prod.fst) ≤ hi (p.map Prod.fst)) &&
    decide (lo (p.map Prod.snd) ≤ hi (q.map Prod.snd)) &&
    decide (lo (q.map Prod.snd) ≤ hi (p.map Prod.snd))

def geom0 : Geom where
  inter := bboxOverlap
  minkowskiHull := fun p _ => p
  approximatedCircle := fun r => [(-r, -r), (-r, r), (r, r), (r, -r)]
  sinT := fun _ => 0
  cosT := fun _ => 0

theorem unreachableBorders_of_zero (cfg : Config) (eid : ℕ)
    (hoff : ∀ e ∈ cfg.extruders, e.nozzle_offset_x.getD 0 = 0 ∧ e.nozzle_offset_y.getD 0 = 0) :
    unreachableBorders cfg 0 0 eid = ⟨0, 0, 0, 0⟩ := by
  unfold unreachableBorders
  split
  · have : ∀ (l : List Extruder), (∀ e ∈ l, e.nozzle_offset_x.getD 0 = 0 ∧ e.nozzle_offset_y.getD 0 = 0) →
        l.foldl (borderStep 0 0 eid) ⟨0, 0, 0, 0⟩ = (⟨0, 0, 0, 0⟩ : Borders) := by
      intro l
      induction l with
      | nil => intro _; rfl
      | cons x xs ih =>
        intro hl
        have hx := hl x (List.mem_cons_self x xs)
        have hxs : ∀ e ∈ xs, e.nozzle_offset_x.getD 0 = 0 ∧ e.nozzle_offset_y.getD 0 = 0 :=
          fun e he => hl e (List.mem_cons_of_mem x he)
        simp only [List.foldl_cons]
        rw [show borderStep 0 0 eid ⟨0, 0, 0, 0⟩ x = ⟨0, 0, 0, 0⟩ from ?_]
        · exact ih hxs
        · unfold borderStep
          split
          · rfl
          · simp [hx.1, hx.2]
    exact this cfg.extruders hoff
  · rfl

theorem c8_strip_area (G : Geom) (cfg : Config) (b : ℚ) (used : List Extruder)
    (hshape : cfg.shape ≠ "elliptic")
    (hmd : cfg.machine_disallowed_areas = [])
    (hoffAll : ∀ e ∈ cfg.extruders, e.nozzle_offset_x.getD 0 = 0 ∧ e.nozzle_offset_y.getD 0 = 0)
    (hoffU : ∀ e ∈ used, e.nozzle_offset_x.getD 0 = 0 ∧ e.nozzle_offset_y.getD 0 = 0)
    (hb : 0 ≤ b) :
    ∀ l ∈ computeDisallowedAreasStatic G cfg b used,
      signedAreaSum l = 4 * b ^ 2 - 2 * b * (cfg.machine_width + cfg.machine_depth) := by
  intro l hl
  obtain ⟨ext, hext, rfl⟩ := List.mem_map.mp hl
  obtain ⟨hx, hy⟩ := hoffU ext hext
  unfold staticAreasFor
  rw [hmd]
  simp only [List.map_nil, List.nil_append, hx, hy, neg_zero]
  rw [if_pos hshape, unreachableBorders_of_zero cfg ext.eid hoffAll]
  rcases eq_or_lt_of_le hb with hb0 | hbpos
  · subst hb0
    simp [rectBorderPolys, signedAreaSum]
  · unfold rectBorderPolys
    simp only [sub_zero, add_zero, if_pos hbpos]
    simp only [signedAreaSum, List.map_append, List.sum_append, List.map_cons, List.map_nil,
      List.sum_cons, List.sum_nil, signedArea, shoelace2]
    ring

theorem c8_counterexample :
    ¬ ∀ l ∈ computeDisallowedAreasStatic geom0 config0 1 [extruder0],
        signedAreaSum l
          = 1 * (2 * config0.machine_width + 2 * config0.machine_depth) - 4 * 1 ^ 2 := by
  intro h
  have h1 := h (staticAreasFor geom0 config0 1 extruder0)
    (by simp [computeDisallowedAreasStatic])
  simp [staticAreasFor, config0, extruder0, unreachableBorders, borderStep,
    rectBorderPolys, signedAreaSum, signedArea, shoelace2] at h1
  norm_num at h1

def extC9 : Extruder :=
  { extruder0 with skirt_brim_line_width := 2/5, initial_layer_line_width_factor := 100 }

def cfgC9 : Config :=
  { config0 with
      adhesion_type := "skirt"
      skirt_gap := 3
      skirt_brim_line_width := 2/5
      initial_layer_line_width_factor := 100
      skirt_line_count := 3
      extruders := [extC9]
      usedExtruders := [extC9] }

theorem c9_end_to_end :
    getEdgeDisallowedSize cfgC9 = .ok (21/5) ∧
    computeDisallowedAreasStatic geom0 cfgC9 (21/5) cfgC9.usedExtruders
      = [[[(-100, -100), (-100, 100), (-479/5, 479/5), (-479/5, -479/5)],
          [(100, 100), (100, -100), (479/5, -479/5), (479/5, 479/5)],
          [(-100, 100), (100, 100), (479/5, 479/5), (-479/5, 479/5)],
          [(100, -100), (-100, -100), (-479/5, -479/5), (479/5, -479/5)]]] ∧
    ((-100 : ℚ) + 21/5 = -479/5 ∧ (100 : ℚ) - 21/5 = 479/5) := by
  refine ⟨?_, ?_, by norm_num⟩
  · simp [getEdgeDisallowedSize, cfgC9, config0, extC9, extruder0]
    norm_num
  · simp [computeDisallowedAreasStatic, staticAreasFor, cfgC9, config0, extC9, extruder0,
      unreachableBorders, borderStep, rectBorderPolys]
    norm_num

/-- Witness for `c8_strip_area`: the baseline bed with border size 1 gives a
signed strip-area sum of 4 - 2*(200+200) = -796. -/
theorem c8_strip_area_witness :
    signedAreaSum (staticAreasFor geom0 config0 1 extruder0)
      = 4 * 1 ^ 2 - 2 * 1 * (config0.machine_width + config0.machine_depth) :=
  c8_strip_area geom0 config0 1 [extruder0] (by simp [config0]) (by simp [config0])
    (by simp [config0, extruder0]) (by simp [extruder0]) (by norm_num)
    (staticAreasFor geom0 config0 1 extruder0) (by simp [computeDisallowedAreasStatic])

/-!
## Prime blobs, prime tower, and the disallowed-area update

Translations of `_computeDisallowedAreasPrimeBlob` (`BuildVolume.py` lines
596-621), `_computeDisallowedAreasPrinted` (lines 552-583) and
`_updateDisallowedAreas` (lines 459-542). The per-extruder dictionaries are
kept as lists aligned with the used-extruder order (dictionary iteration in
the source is insertion order, and the used extruder stacks are distinct).
The prime-position collision flag computed at lines 484-504 is dead in this
version of the source (its value is never read: the prime areas are extended
into the result sets unconditionally), so the embedding omits it.
-/

/-- Per-extruder body of `_computeDisallowedAreasPrimeBlob`. -/
def primeBlobFor (G : Geom) (cfg : Config) (border_size : ℚ) (ext : Extruder) : List Polygon :=
  let prime_x := ext.prime_pos_x
  let prime_y := -ext.prime_pos_y
  if (prime_x = 0 ∧ prime_y = 0) ∨ ¬ ext.prime_blob_enable then []
  else
    let prime_x := if ¬ cfg.machine_center_is_zero then prime_x - cfg.machine_width / 2 else prime_x
    let prime_y := if ¬ cfg.machine_center_is_zero then prime_y + cfg.machine_depth / 2 else prime_y
    let prime_polygon := G.minkowskiHull (G.approximatedCircle PRIME_CLEARANCE)
      (G.approximatedCircle border_size)
    [translatePoly prime_x prime_y prime_polygon]

/-- Translation of `_computeDisallowedAreasPrimeBlob`: one prime-area list per
used extruder. -/
def computeDisallowedAreasPrimeBlob (G : Geom) (cfg : Config) (border_size : ℚ)
    (used : List Extruder) : List (List Polygon) :=
  used.map (primeBlobFor G cfg border_size)

/-- Translation of `_computeDisallowedAreasPrinted`: the prime-tower polygon
list. In the source the same list is stored for every used extruder (the
tower occupies one spot regardless of extruder), so the embedding keeps the
shared list once. -/
def printedAreas (G : Geom) (cfg : Config) : List Polygon :=
  if cfg.prime_tower_enable then
    let prime_tower_size := cfg.prime_tower_size
    let tx0 := cfg.prime_tower_position_x
    let ty0 := -cfg.prime_tower_position_y
    let prime_tower_x := if ¬ cfg.machine_center_is_zero then tx0 - cfg.machine_width / 2 else tx0
    let prime_tower_y := if ¬ cfg.machine_center_is_zero then ty0 + cfg.machine_depth / 2 else ty0
    let prime_tower_area :=
      if cfg.prime_tower_circular then
        let radius := prime_tower_size / 2
        translatePoly (prime_tower_x - radius) (prime_tower_y - radius)
          (G.approximatedCircle radius)
      else
        [(prime_tower_x - prime_tower_size, prime_tower_y - prime_tower_size),
         (prime_tower_x, prime_tower_y - prime_tower_size),
         (prime_tower_x, prime_tower_y),
         (prime_tower_x - prime_tower_size, prime_tower_y)]
    [G.minkowskiHull prime_tower_area (G.approximatedCircle 0)]
  else []

/-- Per-extruder accumulation of `_updateDisallowedAreas` before the prime
tower step: static areas (with border), prime-blob areas, and the
nozzle-declared disallowed areas, paired with the no-brim variant (static
areas with border 0, prime-blob areas, raw nozzle-declared areas). -/
def preTowerFor (G : Geom) (cfg : Config) (border : ℚ) (ext : Extruder) :
    List Polygon × List Polygon :=
  let result := staticAreasFor G cfg border ext ++ primeBlobFor G cfg border ext
  let result_no_brim := staticAreasFor G cfg 0 ext ++ primeBlobFor G cfg border ext
  (result ++ ext.nozzle_disallowed_areas.map
      (fun a => G.minkowskiHull a (G.approximatedCircle border)),
   result_no_brim ++ ext.nozzle_disallowed_areas)

/-- All per-extruder (result, no-brim) pairs before the prime-tower step. -/
def preTowerAreas (G : Geom) (cfg : Config) (border : ℚ) (used : List Extruder) :
    List (List Polygon × List Polygon) :=
  used.map (preTowerFor G cfg border)

/-- Prime-tower step of `_updateDisallowedAreas` (lines 518-533): walk the
per-extruder pairs in order carrying the collision flag, which is set when a
tower polygon intersects the extruder's accumulated result areas and is NEVER
reset; while the flag is clear the tower polygons are appended to both result
sets, and from the first collision on they are appended to the error list
instead. Returns the updated pairs and the error-area list. -/
def primeTowerPass (inter : Polygon → Polygon → Bool) (towers : List Polygon) :
    Bool → List (List Polygon × List Polygon) →
      List (List Polygon × List Polygon) × List Polygon
  | _flag, [] => ([], [])
  | flag, rn :: rest =>
    let flag2 := flag || towers.any (fun t => rn.1.any (fun a => inter t a))
    let next := primeTowerPass inter towers flag2 rest
    if flag2 then (rn :: next.1, towers ++ next.2)
    else ((rn.1 ++ towers, rn.2 ++ towers) :: next.1, next.2)

/-- Mutable build-volume state touched by the recompute pipeline: the two
public disallowed-area lists, the error areas, the derived error flag, the
raft thickness and the extra Z clearance. -/
structure BVState where
  disallowed_areas : List Polygon
  disallowed_areas_no_brim : List Polygon
  error_areas : List Polygon
  has_errors : Bool
  raft_thickness : ℚ
  extra_z_clearance : ℚ
deriving DecidableEq

/-- Used-extruder fallback of `_updateDisallowedAreas` (lines 468-473): when
no extruder is reported used, fall back to the active extruder stack, or to
the global stack itself. -/
def effectiveUsedExtruders (cfg : Config) : List Extruder :=
  if cfg.usedExtruders.isEmpty then
    match cfg.activeExtruder with
    | some e => [e]
    | none => [cfg.globalExtruder]
  else cfg.usedExtruders

/-- Translation of `_updateDisallowedAreas`. The input state stands for the
object's fields before the call; the returned pair is the state after the
call together with the raised exception, if any (the source clears
`_error_areas` before calling `getEdgeDisallowedSize`, so an unknown adhesion
type leaves exactly that mutation behind and propagates the exception). -/
def updateDisallowedAreas (G : Geom) (cfg? : Option Config) (st : BVState) :
    BVState × Option String :=
  match cfg? with
  | none => (st, none)
  | some cfg =>
    let st := { st with error_areas := [] }
    match getEdgeDisallowedSize cfg with
    | .error e => (st, some e)
    | .ok disallowed_border_size =>
      let used := effectiveUsedExtruders cfg
      let base := preTowerAreas G cfg disallowed_border_size used
      let stepped :=
        if 1 < used.length then
          primeTowerPass G.inter (printedAreas G cfg) false base
        else (base, [])
      ({ st with
          error_areas := stepped.2
          has_errors := ! stepped.2.isEmpty
          disallowed_areas := (stepped.1.map Prod.fst).flatten
          disallowed_areas_no_brim := (stepped.1.map Prod.snd).flatten }, none)

/-- Translation of `_updateRaftThickness` (lines 384-399); the
`setPosition` side effect on the scene transform is outside the modelled
state. -/
def updateRaftThickness (cfg : Config) (st : BVState) : BVState :=
  let raft_thickness : ℚ :=
    if cfg.adhesion_type = "raft" then
      cfg.raft_base_thickness + cfg.raft_interface_thickness
        + cfg.raft_surface_layers * cfg.raft_surface_thickness
        + cfg.raft_airgap - cfg.layer_0_z_overlap
    else 0
  { st with raft_thickness := raft_thickness }

/-- Translation of `_updateExtraZClearance` (lines 401-415). -/
def updateExtraZClearance (cfg : Config) (st : BVState) : BVState :=
  let extra_z : ℚ :=
    if cfg.extruders.isEmpty then
      if cfg.retraction_hop_enabled_global then cfg.retraction_hop_global else 0
    else
      cfg.extruders.foldl
        (fun acc e =>
          if e.retraction_hop_enabled ∧ acc < e.retraction_hop then e.retraction_hop else acc)
        0
  { st with extra_z_clearance := extra_z }

/-- Translation of `_updateDisallowedAreasAndRebuild` restricted to the state
the claims are about: `_updateDisallowedAreas`, then `_updateRaftThickness`
and `_updateExtraZClearance` (the final `recalculateBuildVolume` builds
meshes and bounding boxes and does not touch these fields). A raised
exception propagates, skipping the remaining updates. -/
def rebuildPipeline (G : Geom) (cfg : Config) (st : BVState) : BVState × Option String :=
  match updateDisallowedAreas G (some cfg) st with
  | (st1, some e) => (st1, some e)
  | (st1, none) => (updateExtraZClearance cfg (updateRaftThickness cfg st1), none)

/-- Claim C6: the disallowed-area recompute is idempotent. Both
`_updateDisallowedAreas` alone and the `_updateDisallowedAreasAndRebuild`
pipeline fully regenerate the disallowed-area lists, the error list, the
error flag (and the raft/clearance scalars) from the configuration; running
either twice in a row leaves the state of the first run unchanged. -/
theorem c6_recompute_idempotent (G : Geom) (cfg? : Option Config) (cfg : Config) (st : BVState) :
    updateDisallowedAreas G cfg? (updateDisallowedAreas G cfg? st).1
        = updateDisallowedAreas G cfg? st
    ∧ rebuildPipeline G cfg (rebuildPipeline G cfg st).1 = rebuildPipeline G cfg st := by
  constructor
  · cases cfg? with
    | none => rfl
    | some c =>
      simp only [updateDisallowedAreas]
      cases h : getEdgeDisallowedSize c with
      | error e => simp [h]
      | ok b => simp [h]
  · simp only [rebuildPipeline, updateDisallowedAreas]
    cases h : getEdgeDisallowedSize cfg with
    | error e => simp [h, updateRaftThickness, updateExtraZClearance]
    | ok b => simp [h, updateRaftThickness, updateExtraZClearance]

/-- Helper: once the prime-tower collision flag is set it is never reset, so
every remaining extruder keeps its sets unchanged and contributes one copy of
the tower list to the error areas. -/
theorem primeTowerPass_true (inter : Polygon → Polygon → Bool) (towers : List Polygon) :
    ∀ l, primeTowerPass inter towers true l = (l, (l.map (fun _ => towers)).flatten) := by
  intro l
  induction l with
  | nil => rfl
  | cons rn rest ih => simp [primeTowerPass, ih]

/-- Claim C10: in the prime-tower step, with the collision first detected at
the extruder `bk` (no collision over the prefix `pre`), every extruder of
`pre` receives the tower polygons in both its result sets, while `bk` and
every extruder after it — collision or not — keeps its sets unchanged and the
tower polygons are appended to the error list once per remaining extruder. -/
theorem c10_prime_tower_flag (inter : Polygon → Polygon → Bool) (towers : List Polygon)
    (pre : List (List Polygon × List Polygon)) (bk : List Polygon × List Polygon)
    (post : List (List Polygon × List Polygon))
    (hpre : ∀ rn ∈ pre, towers.any (fun t => rn.1.any (fun a => inter t a)) = false)
    (hk : towers.any (fun t => bk.1.any (fun a => inter t a)) = true) :
    primeTowerPass inter towers false (pre ++ bk :: post)
      = (pre.map (fun rn => (rn.1 ++ towers, rn.2 ++ towers)) ++ bk :: post,
         ((bk :: post).map (fun _ => towers)).flatten) := by
  induction pre with
  | nil =>
    simp [primeTowerPass, hk, primeTowerPass_true]
  | cons p pre' ih =>
    have hp := hpre p (List.mem_cons_self p pre')
    have hpre' : ∀ rn ∈ pre', towers.any (fun t => rn.1.any (fun a => inter t a)) = false :=
      fun rn h => hpre rn (List.mem_cons_of_mem p h)
    simp [primeTowerPass, hp, ih hpre']

def towersW : List Polygon := [[(0, 0), (10, 0), (10, 10), (0, 10)]]

def pairA : List Polygon × List Polygon := ([[(50, 50), (60, 50), (60, 60), (50, 60)]], [])

def pairB : List Polygon × List Polygon := ([[(5, 5), (15, 5), (15, 15), (5, 15)]], [])

def pairC : List Polygon × List Polygon := ([], [])

/-- Witness for `c10_prime_tower_flag`: one clean extruder, then a colliding
one, then one more that does not itself collide. -/
theorem c10_prime_tower_flag_witness :
    primeTowerPass bboxOverlap towersW false ([pairA] ++ pairB :: [pairC])
      = ([pairA].map (fun rn => (rn.1 ++ towersW, rn.2 ++ towersW)) ++ pairB :: [pairC],
         ((pairB :: [pairC]).map (fun _ => towersW)).flatten) :=
  c10_prime_tower_flag bboxOverlap towersW [pairA] pairB [pairC]
    (by
      intro rn hrn
      simp only [List.mem_singleton] at hrn
      subst hrn
      simp [towersW, pairA, bboxOverlap, lo, hi]
      norm_num)
    (by
      simp [towersW, pairB, bboxOverlap, lo, hi]
      norm_num)

/-- Prime-tower footprint used by the C3 scenario: rectangular tower of size
10 at position (10, 0) on a centered bed. -/
def towerC3 : Polygon := [(0, -10), (10, -10), (10, 0), (0, 0)]

/-- Nozzle-declared disallowed area overlapping (but not equal to) the
tower footprint. -/
def nozzleC3 : Polygon := [(5, -5), (15, -5), (15, 5), (5, 5)]

/-- Second extruder declaring `nozzleC3` as disallowed. -/
def extC3 : Extruder := { extruder0 with eid := 1, nozzle_disallowed_areas := [nozzleC3] }

/-- Two-extruder configuration with an enabled prime tower overlapping the
nozzle-declared disallowed area of the SECOND used extruder. -/
def cfgC3 : Config :=
  { config0 with
      prime_tower_enable := true
      prime_tower_size := 10
      prime_tower_position_x := 10
      extruders := [extruder0, extC3]
      usedExtruders := [extruder0, extC3] }

/-- Empty initial build-volume state. -/
def bvState0 : BVState := ⟨[], [], [], false, 0, 0⟩

/-- Claim C3, counterexample: on `cfgC3` the tower overlaps a nozzle-declared
disallowed area (of the second used extruder), `hasErrors` is true and the
tower polygon is in the error list — but it IS also a member of the main
disallowed-area list, because the first extruder was processed before the
collision was detected and kept the tower in its result set. -/
theorem c3_counterexample :
    1 < (effectiveUsedExtruders cfgC3).length ∧
    towerC3 ∈ printedAreas geom0 cfgC3 ∧
    geom0.inter towerC3 nozzleC3 = true ∧
    (updateDisallowedAreas geom0 (some cfgC3) bvState0).1.has_errors = true ∧
    towerC3 ∈ (updateDisallowedAreas geom0 (some cfgC3) bvState0).1.error_areas ∧
    towerC3 ∈ (updateDisallowedAreas geom0 (some cfgC3) bvState0).1.disallowed_areas := by
  refine ⟨?_, ?_, ?_, ?_, ?_, ?_⟩
  · simp [effectiveUsedExtruders, cfgC3, config0]
  · simp [printedAreas, cfgC3, config0, geom0, towerC3]
  · simp [geom0, bboxOverlap, towerC3, nozzleC3, lo, hi]
    norm_num
  all_goals
    simp [updateDisallowedAreas, getEdgeDisallowedSize, cfgC3, config0, extruder0, extC3,
      effectiveUsedExtruders, preTowerAreas, preTowerFor, staticAreasFor, primeBlobFor,
      printedAreas, unreachableBorders, borderStep, rectBorderPolys, primeTowerPass,
      geom0, bboxOverlap, lo, hi, towerC3, nozzleC3, bvState0]
    try norm_num

/-- Claim C3 (amended): when the prime tower's footprint overlaps an area of
the FIRST-processed used extruder (and the tower polygon does not coincide
with any pre-tower disallowed polygon), `_updateDisallowedAreas` completes
without an exception, `hasErrors()` returns true, the tower polygon is a
member of the error-area list and is not a member of the main disallowed-area
list. -/
theorem c3_tower_error_first (G : Geom) (cfg : Config) (st : BVState) (t : Polygon)
    (border : ℚ) (b0 : List Polygon × List Polygon)
    (rest : List (List Polygon × List Polygon))
    (hedge : getEdgeDisallowedSize cfg = .ok border)
    (hmulti : 1 < (effectiveUsedExtruders cfg).length)
    (hbase : preTowerAreas G cfg border (effectiveUsedExtruders cfg) = b0 :: rest)
    (ht : t ∈ printedAreas G cfg)
    (hcol : (printedAreas G cfg).any (fun tw => b0.1.any (fun a => G.inter tw a)) = true)
    (hfresh : t ∉ ((b0 :: rest).map Prod.fst).flatten) :
    (updateDisallowedAreas G (some cfg) st).2 = none ∧
    (updateDisallowedAreas G (some cfg) st).1.has_errors = true ∧
    t ∈ (updateDisallowedAreas G (some cfg) st).1.error_areas ∧
    t ∉ (updateDisallowedAreas G (some cfg) st).1.disallowed_areas := by
  simp only [updateDisallowedAreas, hedge, hbase, if_pos hmulti]
  have hstep : primeTowerPass G.inter (printedAreas G cfg) false (b0 :: rest)
      = (b0 :: rest,
         printedAreas G cfg ++ (rest.map (fun _ => printedAreas G cfg)).flatten) := by
    simp [primeTowerPass, hcol, primeTowerPass_true]
  rw [hstep]
  refine ⟨trivial, ?_, ?_, ?_⟩
  · have : printedAreas G cfg ≠ [] := List.ne_nil_of_mem ht
    simp [List.isEmpty_iff, this]
  · simp only []
    exact List.mem_append_left _ ht
  · simpa using hfresh

/-- Two-extruder configuration like `cfgC3`, but with the extruder declaring
the overlapping nozzle area processed FIRST. -/
def cfgC3W : Config :=
  { cfgC3 with
      extruders := [extC3, extruder0]
      usedExtruders := [extC3, extruder0] }

/-- Witness for `c3_tower_error_first` at `cfgC3W`: the collision is found at
the first used extruder, the tower lands in the error list and the main
disallowed list is exactly the pre-tower nozzle polygon. -/
theorem c3_tower_error_first_witness :
    (updateDisallowedAreas geom0 (some cfgC3W) bvState0).2 = none ∧
    (updateDisallowedAreas geom0 (some cfgC3W) bvState0).1.has_errors = true ∧
    towerC3 ∈ (updateDisallowedAreas geom0 (some cfgC3W) bvState0).1.error_areas ∧
    towerC3 ∉ (updateDisallowedAreas geom0 (some cfgC3W) bvState0).1.disallowed_areas :=
  c3_tower_error_first geom0 cfgC3W bvState0 towerC3 0 ([nozzleC3], [nozzleC3]) [([], [])]
    (by simp [getEdgeDisallowedSize, cfgC3W, cfgC3, config0, extruder0, extC3])
    (by simp [effectiveUsedExtruders, cfgC3W, cfgC3, config0])
    (by
      simp [preTowerAreas, preTowerFor, staticAreasFor, primeBlobFor, effectiveUsedExtruders,
        unreachableBorders, borderStep, rectBorderPolys, cfgC3W, cfgC3, config0, extruder0,
        extC3, geom0, nozzleC3])
    (by simp [printedAreas, cfgC3W, cfgC3, config0, geom0, towerC3])
    (by
      simp [printedAreas, cfgC3W, cfgC3, config0, geom0, towerC3, nozzleC3, bboxOverlap, lo, hi]
      norm_num)
    (by
      simp [towerC3, nozzleC3]
      try norm_num)

/-!
## Boundary classifier

Translation of `updateNodeBoundaryCheck` (`BuildVolume.py` lines 112-160) and
`checkBoundsAndUpdate` (lines 163-194). The scene-graph collaborators
(`UM.Scene.SceneNode`, `BreadthFirstIterator`, `CuraSceneNode`) are not part
of this repository's sources, so the scene is modelled from the spec: a scene
is the breadth-first node list the iterator yields (ancestors before
descendants), and each node carries the ids of all its descendants (what
`getAllChildren` returns). The per-object outside-build-area flags form a map
from node id to Bool. Tree-shapedness of the scene is the `SceneOK`
well-formedness predicate below.
-/

/-- Axis-aligned 3D box (`UM.Math.AxisAlignedBox`): Y is the vertical axis,
as in Cura scene space. -/
structure AABox where
  minX : ℚ
  minY : ℚ
  minZ : ℚ
  maxX : ℚ
  maxY : ℚ
  maxZ : ℚ
deriving DecidableEq

/-- Modelled from the spec: `box.set(bottom = v)` replaces the bottom (minimum
Y) of the box. -/
def setBottom (b : AABox) (v : ℚ) : AABox := { b with minY := v }

/-- Modelled from the spec: `CuraSceneNode.collidesWithBbox` (not under src/)
reports a collision when the node's bounding box is not fully contained in the
build-volume box; a node without a bounding box reports no collision. The
containment is inclusive, so a box whose bottom sits exactly on the extended
floor is not outside. -/
def nodeCollidesWithBbox (nbox : Option AABox) (vol : AABox) : Bool :=
  match nbox with
  | none => false
  | some b =>
    ! (decide (vol.minX ≤ b.minX) && decide (b.maxX ≤ vol.maxX)
      && decide (vol.minY ≤ b.minY) && decide (b.maxY ≤ vol.maxY)
      && decide (vol.minZ ≤ b.minZ) && decide (b.maxZ ≤ vol.maxZ))

/-- Modelled from the spec: `CuraSceneNode.collidesWithArea` (not under src/)
reports whether the node's 2D footprint overlaps any of the given disallowed
polygons; the overlap test is the geometry oracle's intersection. -/
def nodeCollidesWithArea (G : Geom) (footprint : Polygon) (areas : List Polygon) : Bool :=
  areas.any (fun a => G.inter footprint a)

/-- Modelled from the spec: one scene node as the boundary classifier sees it.
`descIds` is the id list of ALL descendants (any depth), in scene order —
what `getAllChildren` yields. `outside0` is not stored here: flags live in a
separate map so the two passes of the classifier can update them. -/
structure SNodeF where
  nid : ℕ
  isGroup : Bool
  isSliceable : Bool
  nbox : Option AABox
  footprint : Polygon
  extruderPos : ℕ
  descIds : List ℕ
deriving DecidableEq

/-- Collaborator snapshot the classifier reads: the geometry oracle, the
build volume's bounding box (`getBoundingBox()`), the current disallowed
areas (`getDisallowedAreas()`), and the per-position extruder enabled flags
(`global_container_stack.extruders[pos].isEnabled`). -/
structure Env where
  G : Geom
  volume_aabb : Option AABox
  disallowed_areas : List Polygon
  extruderEnabled : ℕ → Bool

/-- Outside-build-area flags, as a map from node id to Bool. -/
def Flags : Type := ℕ → Bool

/-- Point update of a flag map. -/
def updF (fl : Flags) (k : ℕ) (v : Bool) : Flags :=
  fun m => if m = k then v else fl m

/-- Per-node classification cascade of `updateNodeBoundaryCheck` and
`checkBoundsAndUpdate`: build-volume box collision first, then disallowed
areas, then disabled extruder; the first matching test decides. -/
def classifyNode (env : Env) (vb : AABox) (n : SNodeF) : Bool :=
  if nodeCollidesWithBbox n.nbox vb then true
  else if nodeCollidesWithArea env.G n.footprint env.disallowed_areas then true
  else if ! env.extruderEnabled n.extruderPos then true
  else false

/-- First pass of `updateNodeBoundaryCheck`: walk the breadth-first node list
and set the flag of every sliceable-or-group node to its cascade
classification. -/
def boundaryPass1 (env : Env) (vb : AABox) (nodes : List SNodeF) (fl : Flags) : Flags :=
  nodes.foldl
    (fun fl n =>
      if n.isSliceable || n.isGroup then updF fl n.nid (classifyNode env vb n) else fl)
    fl

/-- Group-override step (lines 149-160): scan all descendants of the group
and mark the group outside if any descendant is outside, then copy the
group's flag to every descendant. -/
def groupStep (fl : Flags) (g : SNodeF) : Flags :=
  let gval := fl g.nid || g.descIds.any (fun m => fl m)
  fun m => if m = g.nid then gval else if m ∈ g.descIds then gval else fl m

/-- Translation of `updateNodeBoundaryCheck`: no work when there is no
build-volume bounding box; otherwise extend the box bottom to -9001, classify
every sliceable-or-group node, then run the group override over the group
nodes in scene (breadth-first) order. -/
def updateNodeBoundaryCheck (env : Env) (scene : List SNodeF) (fl : Flags) : Flags :=
  match env.volume_aabb with
  | none => fl
  | some bb =>
    let vb := setBottom bb (-9001)
    let fl1 := boundaryPass1 env vb scene fl
    (scene.filter (fun n => n.isGroup)).foldl groupStep fl1

/-- Translation of `checkBoundsAndUpdate`: classify a single node, against
the given bounds when provided, else against the bottom-extended build-volume
box; no work when neither is available or the node is neither sliceable nor a
group. -/
def checkBoundsAndUpdate (env : Env) (bounds : Option AABox) (n : SNodeF) (fl : Flags) :
    Flags :=
  let vb? : Option AABox :=
    match bounds with
    | none =>
      match env.volume_aabb with
      | none => none
      | some bb => some (setBottom bb (-9001))
    | some b => some b
  match vb? with
  | none => fl
  | some vb =>
    if n.isSliceable || n.isGroup then updF fl n.nid (classifyNode env vb n) else fl

/-- Helper: the first pass leaves ids that occur nowhere in the node list
untouched. -/
theorem boundaryPass1_not_mem (env : Env) (vb : AABox) :
    ∀ (nodes : List SNodeF) (fl : Flags) (m : ℕ),
      m ∉ nodes.map SNodeF.nid → boundaryPass1 env vb nodes fl m = fl m := by
  intro nodes
  induction nodes with
  | nil => intro fl m _; rfl
  | cons x xs ih =>
    intro fl m hm
    simp only [List.map_cons, List.mem_cons, not_or] at hm
    simp only [boundaryPass1, List.foldl_cons]
    by_cases h : (x.isSliceable || x.isGroup) = true
    · simp only [h, if_true]
      have := ih (updF fl x.nid (classifyNode env vb x)) m hm.2
      simp only [boundaryPass1] at this
      rw [this, updF, if_neg hm.1]
    · simp only [h, if_false]
      exact ih _ m hm.2

/-- Helper: with pairwise-distinct node ids, the first pass assigns every
sliceable-or-group node its cascade classification. -/
theorem boundaryPass1_value (env : Env) (vb : AABox) :
    ∀ (nodes : List SNodeF) (fl : Flags) (n : SNodeF),
      (nodes.map SNodeF.nid).Nodup → n ∈ nodes → (n.isSliceable || n.isGroup) = true →
      boundaryPass1 env vb nodes fl n.nid = classifyNode env vb n := by
  intro nodes
  induction nodes with
  | nil => intro fl n _ hn; exact absurd hn (List.not_mem_nil n)
  | cons x xs ih =>
    intro fl n hnd hn hsg
    simp only [List.map_cons, List.nodup_cons] at hnd
    rcases List.mem_cons.mp hn with rfl | hmem
    · simp only [boundaryPass1, List.foldl_cons, hsg, if_true]
      have := boundaryPass1_not_mem env vb xs (updF fl n.nid (classifyNode env vb n)) n.nid hnd.1
      simp only [boundaryPass1] at this
      rw [this, updF, if_pos rfl]
    · simp only [boundaryPass1, List.foldl_cons]
      by_cases h : (x.isSliceable || x.isGroup) = true
      · simp only [h, if_true]
        exact ih _ n hnd.2 hmem hsg
      · simp only [h, if_false]
        exact ih fl n hnd.2 hmem hsg

/-- Claim C4: for a sliceable-or-group node, with a build-volume bounding box
available, both `checkBoundsAndUpdate` and the per-node pass of
`updateNodeBoundaryCheck` set the node's flag by the three tests applied in
exactly this order — bounding-box collision with the bottom-extended volume
box, disallowed-area collision, disabled assigned extruder — the first
matching test deciding, and false when none matches. -/
theorem c4_classifier_order (env : Env) (bb : AABox) (n : SNodeF) (fl : Flags)
    (scene : List SNodeF)
    (hvol : env.volume_aabb = some bb)
    (hsg : (n.isSliceable || n.isGroup) = true)
    (hnd : (scene.map SNodeF.nid).Nodup)
    (hmem : n ∈ scene) :
    checkBoundsAndUpdate env none n fl n.nid
        = (if nodeCollidesWithBbox n.nbox (setBottom bb (-9001)) then true
           else if nodeCollidesWithArea env.G n.footprint env.disallowed_areas then true
           else if env.extruderEnabled n.extruderPos = false then true
           else false) ∧
    boundaryPass1 env (setBottom bb (-9001)) scene fl n.nid
        = (if nodeCollidesWithBbox n.nbox (setBottom bb (-9001)) then true
           else if nodeCollidesWithArea env.G n.footprint env.disallowed_areas then true
           else if env.extruderEnabled n.extruderPos = false then true
           else false) := by
  have hcasc : (if nodeCollidesWithBbox n.nbox (setBottom bb (-9001)) then true
      else if nodeCollidesWithArea env.G n.footprint env.disallowed_areas then true
      else if env.extruderEnabled n.extruderPos = false then true
      else false) = classifyNode env (setBottom bb (-9001)) n := by
    by_cases h : env.extruderEnabled n.extruderPos = true <;>
      simp [classifyNode, h]
  rw [hcasc]
  constructor
  · simp only [checkBoundsAndUpdate, hvol, hsg, if_true]
    rw [updF, if_pos rfl]
  · exact boundaryPass1_value env (setBottom bb (-9001)) scene fl n hnd hmem hsg

/-!
## Scene well-formedness and the group override (claim C5)

The scene list stands for a breadth-first traversal of a scene tree. What the
group-override pass relies on is exactly: (1) for any two nodes in traversal
order, the later one is either a descendant of the earlier one (with its
descendant set contained in the earlier one's) or their id clusters are
disjoint, and (2) no node is its own descendant. `SceneOK` states this;
every tree traversed breadth-first with distinct node ids satisfies it.
-/

/-- Node id together with all descendant ids. -/
def clusterIds (n : SNodeF) : List ℕ := n.nid :: n.descIds

/-- Node `b` lies (strictly) inside the subtree of `a`. -/
def nestedIn (a b : SNodeF) : Prop :=
  b.nid ∈ a.descIds ∧ ∀ m ∈ b.descIds, m ∈ a.descIds

/-- The id clusters of `a` and `b` share no id. -/
def clustDisj (a b : SNodeF) : Prop := ∀ m ∈ clusterIds b, m ∉ clusterIds a

/-- Scene-order relation between an earlier node `a` and a later node `b`. -/
def sceneRel (a b : SNodeF) : Prop := nestedIn a b ∨ clustDisj a b

/-- Well-formedness of a breadth-first scene list. -/
def SceneOK (scene : List SNodeF) : Prop :=
  List.Pairwise sceneRel scene ∧ ∀ n ∈ scene, n.nid ∉ n.descIds

/-- Helper: the group step only writes ids inside the group's cluster. -/
theorem groupStep_not_mem (fl : Flags) (g : SNodeF) (m : ℕ) (hm : m ∉ clusterIds g) :
    groupStep fl g m = fl m := by
  simp only [clusterIds, List.mem_cons, not_or] at hm
  simp only [groupStep]
  rw [if_neg hm.1, if_neg hm.2]

/-- Helper: inside the group's cluster the group step writes the override
value: the group's flag OR-ed with its descendants' flags. -/
theorem groupStep_mem (fl : Flags) (g : SNodeF) (m : ℕ) (hm : m ∈ clusterIds g) :
    groupStep fl g m = (fl g.nid || g.descIds.any (fun x => fl x)) := by
  simp only [groupStep]
  by_cases h : m = g.nid
  · rw [if_pos h]
  · rcases List.mem_cons.mp hm with heq | hmem
    · exact absurd heq h
    · rw [if_neg h, if_pos hmem]

/-- Helper: a true flag inside a cluster makes the override value true. -/
theorem gval_true (fl : Flags) (h : SNodeF) (m0 : ℕ) (hm : m0 ∈ clusterIds h)
    (ht : fl m0 = true) : (fl h.nid || h.descIds.any (fun x => fl x)) = true := by
  rcases List.mem_cons.mp hm with heq | hmem
  · rw [← heq, ht, Bool.true_or]
  · have : h.descIds.any (fun x => fl x) = true := List.any_eq_true.mpr ⟨m0, hmem, ht⟩
    rw [this, Bool.or_true]

/-- Helper: one group step of a node `h` that is either inside `g`'s subtree
or cluster-disjoint from `g` keeps `g`'s cluster constant, and keeps the
value at `g.nid` unchanged in the nested and disjoint cases. -/
theorem step_const (g h : SNodeF) (fl : Flags)
    (hself : g.nid ∉ g.descIds)
    (hrel : nestedIn g h ∨ clustDisj g h)
    (hconst : ∀ m ∈ g.descIds, fl m = fl g.nid) :
    (∀ m ∈ g.descIds, groupStep fl h m = groupStep fl h g.nid) ∧
      groupStep fl h g.nid = fl g.nid := by
  rcases hrel with ⟨hn1, hn2⟩ | hdisj
  · have hgn : g.nid ∉ clusterIds h := by
      intro hmem
      rcases List.mem_cons.mp hmem with heq | hmem2
      · rw [heq] at hself
        exact hself hn1
      · exact hself (hn2 _ hmem2)
    have hval : groupStep fl h g.nid = fl g.nid := groupStep_not_mem _ _ _ hgn
    refine ⟨?_, hval⟩
    intro m hm
    rw [hval]
    by_cases hmh : m ∈ clusterIds h
    · rw [groupStep_mem _ _ _ hmh]
      have h1 : fl h.nid = fl g.nid := hconst _ hn1
      rcases hv : fl g.nid with _ | _
      · rw [h1, hv, Bool.false_or]
        refine List.any_eq_false.mpr ?_
        intro x hx
        rw [hconst _ (hn2 _ hx), hv]
        exact Bool.false_ne_true
      · rw [h1, hv, Bool.true_or]
    · rw [groupStep_not_mem _ _ _ hmh]
      exact hconst _ hm
  · have huntouched : ∀ m ∈ clusterIds g, groupStep fl h m = fl m := by
      intro m hm
      refine groupStep_not_mem _ _ _ ?_
      intro hmh
      exact hdisj m hmh hm
    have hval : groupStep fl h g.nid = fl g.nid :=
      huntouched _ (List.mem_cons_self _ _)
    refine ⟨?_, hval⟩
    intro m hm
    rw [hval, huntouched _ (List.mem_cons_of_mem _ hm)]
    exact hconst _ hm

/-- Helper: folding group steps of nodes inside `g`'s subtree or disjoint
from it keeps `g`'s cluster constant. -/
theorem fold_const (g : SNodeF) (hself : g.nid ∉ g.descIds) :
    ∀ (gs : List SNodeF) (fl : Flags),
      (∀ h ∈ gs, nestedIn g h ∨ clustDisj g h) →
      (∀ m ∈ g.descIds, fl m = fl g.nid) →
      ∀ m ∈ g.descIds, gs.foldl groupStep fl m = gs.foldl groupStep fl g.nid := by
  intro gs
  induction gs with
  | nil => intro fl _ hconst m hm; exact hconst m hm
  | cons h hs ih =>
    intro fl hrel hconst m hm
    simp only [List.foldl_cons]
    have hstep := step_const g h fl hself (hrel h (List.mem_cons_self h hs)) hconst
    refine ih (groupStep fl h) (fun x hx => hrel x (List.mem_cons_of_mem h hx)) ?_ m hm
    intro m' hm'
    exact hstep.1 m' hm'

/-- Helper: one group step preserves the existence of a true flag in `g`'s
cluster, whenever the stepping node's cluster is disjoint from `g`'s, lies
inside `g`'s subtree, or contains `g`'s cluster. -/
theorem step_trueIn (g h : SNodeF) (fl : Flags)
    (hcase : (∀ m ∈ clusterIds g, m ∉ clusterIds h) ∨ nestedIn g h ∨
      (∀ m ∈ clusterIds g, m ∈ clusterIds h)) :
    (∃ m ∈ clusterIds g, fl m = true) →
      ∃ m ∈ clusterIds g, groupStep fl h m = true := by
  rintro ⟨m0, hm0, ht⟩
  rcases hcase with hdisj | ⟨hn1, hn2⟩ | hsub
  · exact ⟨m0, hm0, by rw [groupStep_not_mem _ _ _ (hdisj m0 hm0)]; exact ht⟩
  · by_cases hmh : m0 ∈ clusterIds h
    · refine ⟨h.nid, List.mem_cons_of_mem _ hn1, ?_⟩
      rw [groupStep_mem _ _ _ (List.mem_cons_self _ _)]
      exact gval_true fl h m0 hmh ht
    · exact ⟨m0, hm0, by rw [groupStep_not_mem _ _ _ hmh]; exact ht⟩
  · refine ⟨m0, hm0, ?_⟩
    rw [groupStep_mem _ _ _ (hsub m0 hm0)]
    exact gval_true fl h m0 (hsub m0 hm0) ht

/-- Helper: the fold of group steps preserves the existence of a true flag in
`g`'s cluster under the per-node case condition of `step_trueIn`. -/
theorem fold_trueIn (g : SNodeF) :
    ∀ (gs : List SNodeF) (fl : Flags),
      (∀ h ∈ gs, (∀ m ∈ clusterIds g, m ∉ clusterIds h) ∨ nestedIn g h ∨
        (∀ m ∈ clusterIds g, m ∈ clusterIds h)) →
      (∃ m ∈ clusterIds g, fl m = true) →
      ∃ m ∈ clusterIds g, gs.foldl groupStep fl m = true := by
  intro gs
  induction gs with
  | nil => intro fl _ ht; exact ht
  | cons h hs ih =>
    intro fl hcase ht
    simp only [List.foldl_cons]
    exact ih (groupStep fl h) (fun x hx => hcase x (List.mem_cons_of_mem h hx))
      (step_trueIn g h fl (hcase h (List.mem_cons_self h hs)) ht)

/-- Claim C5 (amended): after `updateNodeBoundaryCheck`, for every group node
of a well-formed scene, every descendant carries exactly the group's final
flag; and if any descendant was classified Outside by the per-object pass,
the group and all of its descendants end Outside. (The group's final flag is
its own three-rule classification unless an enclosing group's override forced
it Outside.) -/
theorem c5_group_override (env : Env) (scene : List SNodeF) (fl : Flags) (bb : AABox)
    (g : SNodeF)
    (hvol : env.volume_aabb = some bb)
    (hok : SceneOK scene)
    (hg : g ∈ scene)
    (hgrp : g.isGroup = true) :
    (∀ m ∈ g.descIds,
      updateNodeBoundaryCheck env scene fl m = updateNodeBoundaryCheck env scene fl g.nid) ∧
    ((∃ m ∈ g.descIds, boundaryPass1 env (setBottom bb (-9001)) scene fl m = true) →
      updateNodeBoundaryCheck env scene fl g.nid = true ∧
        ∀ m ∈ g.descIds, updateNodeBoundaryCheck env scene fl m = true) := by
  have hself : g.nid ∉ g.descIds := hok.2 g hg
  have hgmem : g ∈ scene.filter (fun n => n.isGroup) :=
    List.mem_filter.mpr ⟨hg, by simp [hgrp]⟩
  obtain ⟨pre, post, hsplit⟩ := List.append_of_mem hgmem
  have hpw : List.Pairwise sceneRel (scene.filter (fun n => n.isGroup)) :=
    List.Pairwise.sublist (List.filter_sublist scene) hok.1
  rw [hsplit] at hpw
  have hparts := List.pairwise_append.mp hpw
  have hcross : ∀ a ∈ pre, ∀ b ∈ g :: post, sceneRel a b := hparts.2.2
  have hgpost : ∀ b ∈ post, sceneRel g b := (List.pairwise_cons.mp hparts.2.1).1
  have hpre_g : ∀ a ∈ pre, sceneRel a g :=
    fun a ha => hcross a ha g (List.mem_cons_self g post)
  set P := boundaryPass1 env (setBottom bb (-9001)) scene fl with hP
  have hF : updateNodeBoundaryCheck env scene fl
      = (scene.filter (fun n => n.isGroup)).foldl groupStep P := by
    simp only [updateNodeBoundaryCheck, hvol]
  have hFsplit : updateNodeBoundaryCheck env scene fl
      = post.foldl groupStep (groupStep (pre.foldl groupStep P) g) := by
    rw [hF, hsplit, List.foldl_append, List.foldl_cons]
  -- Part A: after g's own step its cluster is constant, and the later steps
  -- (nested inside g or disjoint from it) preserve that.
  have hconst2 : ∀ m ∈ g.descIds,
      groupStep (pre.foldl groupStep P) g m = groupStep (pre.foldl groupStep P) g g.nid := by
    intro m hm
    rw [groupStep_mem _ _ _ (List.mem_cons_of_mem _ hm),
      groupStep_mem _ _ _ (List.mem_cons_self _ _)]
  have hA : ∀ m ∈ g.descIds,
      updateNodeBoundaryCheck env scene fl m = updateNodeBoundaryCheck env scene fl g.nid := by
    intro m hm
    rw [hFsplit]
    exact fold_const g hself post (groupStep (pre.foldl groupStep P) g) hgpost hconst2 m hm
  refine ⟨hA, ?_⟩
  rintro ⟨m0, hm0, hPm0⟩
  -- Part B: a true pass-1 flag in g's cluster survives the whole group fold.
  have hcase : ∀ h ∈ scene.filter (fun n => n.isGroup),
      (∀ m ∈ clusterIds g, m ∉ clusterIds h) ∨ nestedIn g h ∨
        (∀ m ∈ clusterIds g, m ∈ clusterIds h) := by
    intro h hh
    rw [hsplit] at hh
    rcases List.mem_append.mp hh with hhp | hhgp
    · rcases hpre_g h hhp with ⟨hn1, hn2⟩ | hdisj
      · refine Or.inr (Or.inr ?_)
        intro m hm
        rcases List.mem_cons.mp hm with heq | hmem
        · exact List.mem_cons_of_mem _ (heq ▸ hn1)
        · exact List.mem_cons_of_mem _ (hn2 _ hmem)
      · exact Or.inl (fun m hm => hdisj m hm)
    · rcases List.mem_cons.mp hhgp with rfl | hhpost
      · exact Or.inr (Or.inr (fun m hm => hm))
      · rcases hgpost h hhpost with hnest | hdisj
        · exact Or.inr (Or.inl hnest)
        · refine Or.inl ?_
          intro m hm hmh
          exact hdisj m hmh hm
  have hTrue : ∃ m ∈ clusterIds g,
      (scene.filter (fun n => n.isGroup)).foldl groupStep P m = true :=
    fold_trueIn g _ P hcase ⟨m0, List.mem_cons_of_mem _ hm0, hPm0⟩
  obtain ⟨m1, hm1, hFm1⟩ := hTrue
  rw [← hF] at hFm1
  have hgTrue : updateNodeBoundaryCheck env scene fl g.nid = true := by
    rcases List.mem_cons.mp hm1 with heq | hmem
    · rw [← heq]; exact hFm1
    · rw [← hA m1 hmem]; exact hFm1
  exact ⟨hgTrue, fun m hm => by rw [hA m hm]; exact hgTrue⟩

/-- Build-volume box of the concrete scene scenarios. -/
def volBox : AABox := ⟨-100, 0, -100, 100, 200, 100⟩

/-- Node bounding box fully inside the build volume. -/
def boxIn : AABox := ⟨0, 0, 0, 10, 10, 10⟩

/-- Node bounding box sticking out of the build volume. -/
def boxOut : AABox := ⟨300, 0, 0, 310, 10, 10⟩

/-- Scene root (neither sliceable nor a group). -/
def nodeRoot : SNodeF := ⟨0, false, false, none, [], 0, [1, 2, 3, 4]⟩

/-- Outer group, containing the outside leaf and the inner group. -/
def nodeG1 : SNodeF := ⟨1, true, false, some boxIn, [], 0, [2, 3, 4]⟩

/-- Sliceable leaf whose bounding box is outside the build volume. -/
def nodeA : SNodeF := ⟨2, false, true, some boxOut, [], 0, []⟩

/-- Inner group whose own subtree is entirely inside the build volume. -/
def nodeG3 : SNodeF := ⟨3, true, false, some boxIn, [], 0, [4]⟩

/-- Sliceable leaf inside the build volume, child of the inner group. -/
def nodeB : SNodeF := ⟨4, false, true, some boxIn, [], 0, []⟩

/-- Breadth-first scene list of the nested-group scenario. -/
def sceneC5 : List SNodeF := [nodeRoot, nodeG1, nodeA, nodeG3, nodeB]

/-- Classifier environment of the concrete scenarios: volume box present, no
disallowed areas, every extruder enabled. -/
def env0 : Env := ⟨geom0, some volBox, [], fun _ => true⟩

/-- All-inside initial flags. -/
def fl0 : Flags := fun _ => false

/-- Claim C5, counterexample: in `sceneC5` no descendant of the inner group
`nodeG3` is classified Outside by the per-object pass, and `nodeG3`'s own
three-rule classification is Inside — yet its descendant `nodeB` ends
Outside, because the outer group (which contains the outside leaf `nodeA`)
overrides the whole subtree first. -/
theorem c5_counterexample :
    (∀ m ∈ nodeG3.descIds,
      boundaryPass1 env0 (setBottom volBox (-9001)) sceneC5 fl0 m = false) ∧
    classifyNode env0 (setBottom volBox (-9001)) nodeG3 = false ∧
    boundaryPass1 env0 (setBottom volBox (-9001)) sceneC5 fl0 nodeG3.nid = false ∧
    nodeB.nid ∈ nodeG3.descIds ∧
    updateNodeBoundaryCheck env0 sceneC5 fl0 nodeB.nid = true := by
  refine ⟨?_, ?_, ?_, ?_, ?_⟩ <;>
    simp [boundaryPass1, classifyNode, updateNodeBoundaryCheck, groupStep, updF,
      nodeCollidesWithBbox, nodeCollidesWithArea, setBottom, sceneC5, nodeRoot, nodeG1,
      nodeA, nodeG3, nodeB, env0, fl0, volBox, boxIn, boxOut, geom0] <;>
    norm_num

/-- Witness for `c4_classifier_order` at the outside leaf `nodeA` of
`sceneC5`. -/
theorem c4_classifier_order_witness :
    checkBoundsAndUpdate env0 none nodeA fl0 nodeA.nid
        = (if nodeCollidesWithBbox nodeA.nbox (setBottom volBox (-9001)) then true
           else if nodeCollidesWithArea env0.G nodeA.footprint env0.disallowed_areas then true
           else if env0.extruderEnabled nodeA.extruderPos = false then true
           else false) ∧
    boundaryPass1 env0 (setBottom volBox (-9001)) sceneC5 fl0 nodeA.nid
        = (if nodeCollidesWithBbox nodeA.nbox (setBottom volBox (-9001)) then true
           else if nodeCollidesWithArea env0.G nodeA.footprint env0.disallowed_areas then true
           else if env0.extruderEnabled nodeA.extruderPos = false then true
           else false) :=
  c4_classifier_order env0 volBox nodeA fl0 sceneC5 rfl rfl
    (by norm_num [sceneC5, nodeRoot, nodeG1, nodeA, nodeG3, nodeB, List.nodup_cons])
    (by simp [sceneC5])

/-- Witness for `c5_group_override` at the outer group `nodeG1` of `sceneC5`:
its descendant `nodeA` is classified Outside by the per-object pass, so the
group and its descendant `nodeB` end Outside. -/
theorem c5_group_override_witness :
    updateNodeBoundaryCheck env0 sceneC5 fl0 nodeG1.nid = true ∧
    updateNodeBoundaryCheck env0 sceneC5 fl0 nodeB.nid = true := by
  have hok : SceneOK sceneC5 := by
    constructor
    · simp only [sceneC5, List.pairwise_cons, List.mem_cons, List.not_mem_nil]
      refine ⟨?_, ?_, ?_, ?_, ?_⟩ <;>
        simp [sceneRel, nestedIn, clustDisj, clusterIds, nodeRoot, nodeG1, nodeA, nodeG3,
          nodeB]
    · intro n hn
      simp only [sceneC5, List.mem_cons, List.not_mem_nil, or_false] at hn
      rcases hn with rfl | rfl | rfl | rfl | rfl <;>
        simp [nodeRoot, nodeG1, nodeA, nodeG3, nodeB]
  have h := c5_group_override env0 sceneC5 fl0 volBox nodeG1 rfl hok
    (by simp [sceneC5]) rfl
  have hP2 : boundaryPass1 env0 (setBottom volBox (-9001)) sceneC5 fl0 nodeA.nid = true := by
    simp [boundaryPass1, classifyNode, updF, nodeCollidesWithBbox, nodeCollidesWithArea,
      setBottom, sceneC5, nodeRoot, nodeG1, nodeA, nodeG3, nodeB, env0, fl0, volBox, boxIn,
      boxOut, geom0]
    norm_num
  have hB := h.2 ⟨nodeA.nid, by simp [nodeG1, nodeA], hP2⟩
  exact ⟨hB.1, hB.2 nodeB.nid (by simp [nodeG1, nodeB])⟩
